import Mathlib

/-!
Verification of the talentvector-ai matching and feedback core.

The scoring and weight-adaptation code (`backend/matching.py`,
`backend/feedback.py`) is embedded shallowly: scores and weights are exact
rationals, the SQLite feedback store is a list of entries together with a
flag saying whether storage operations succeed, and fallible Python calls
are rendered as `Except`.
-/

namespace TalentVector

/-- Round a rational to `n` decimal places, modelling Python's `round(x, n)`.
(Python rounds ties to even; `round` here rounds ties up.  No statement
proved below evaluates `roundTo` at a tie, so the two agree everywhere they
are used.) -/
def roundTo (n : ℕ) (x : ℚ) : ℚ := (round (x * 10 ^ n) : ℤ) / 10 ^ n

/-- Dot product of two vectors, truncating to the shorter length. -/
def dotp (a b : List ℚ) : ℚ := (List.zipWith (fun x y => x * y) a b).sum

/-- Squared Euclidean norm of a vector. -/
def normSq (a : List ℚ) : ℚ := dotp a a

/-- Rational stand-in for the floating-point square root used by
`sklearn.metrics.pairwise.cosine_similarity` when it normalizes each row.
It returns a strict rational upper bound of the true square root (and `0`
at `0`, matching sklearn's replacement of zero norms by a harmless
constant).  Every property proved below is independent of the
approximation error, and depends only on `ratSqrt q > 0` for `q > 0` and
`(ratSqrt q) ^ 2 > q`. -/
def ratSqrt (q : ℚ) : ℚ :=
  if q ≤ 0 then 0 else ((Nat.sqrt (q.num.toNat * q.den) + 1 : ℕ) : ℚ) / (q.den : ℚ)

/-- Cosine of the angle between two embeddings,
`dot(a,b) / (‖a‖ * ‖b‖)`, as computed inside
`CandidateJobMatcher._compute_cosine_similarity` by sklearn.  Division by
zero (a zero-norm vector) yields `0`, matching sklearn's zero-norm
handling. -/
def cosineRaw (a b : List ℚ) : ℚ :=
  dotp a b / (ratSqrt (normSq a) * ratSqrt (normSq b))

/-- Embeds `CandidateJobMatcher._compute_cosine_similarity`: sklearn raises
when the two row vectors have different dimension; otherwise the cosine is
mapped from [-1,1] to [0,1] via `(similarity + 1) / 2`. -/
def computeCosineSimilarity (a b : List ℚ) : Except String ℚ :=
  if a.length ≠ b.length then .error "Incompatible dimension for X and Y matrices"
  else .ok ((cosineRaw a b + 1) / 2)

/-- Embeds `CandidateJobMatcher._get_recommendation`. -/
def getRecommendation (final_score : ℚ) : String :=
  if final_score ≥ 8 then "STRONG MATCH - Recommend immediate interview/next round"
  else if final_score ≥ 7 then "GOOD MATCH - Recommend for consideration"
  else if final_score ≥ 6 then "MODERATE MATCH - Consider if other candidates limited"
  else if final_score ≥ 5 then "WEAK MATCH - Not recommended at this time"
  else "POOR MATCH - Do not recommend"

/-- Embeds `CandidateJobMatcher._generate_explanation` (bucket selection and
sentence assembly; the interpolation of the numeric values into the text is
elided, no claim depends on it). -/
def generateExplanation (similarity screening_score : ℚ) : String :=
  let p1 :=
    if similarity ≥ 9/10 then "Strong technical compatibility"
    else if similarity ≥ 7/10 then "Good technical fit"
    else if similarity ≥ 5/10 then "Moderate technical overlap"
    else "Limited technical match"
  let p2 :=
    if screening_score ≥ 8 then "Excellent screening performance"
    else if screening_score ≥ 6 then "Good screening results"
    else if screening_score ≥ 4 then "Acceptable responses"
    else "Poor screening performance"
  p1 ++ ". " ++ p2 ++ "."

/-- Result dictionary returned by `CandidateJobMatcher.compute_match`. -/
structure MatchResult where
  similarity_score : ℚ
  screening_score : ℚ
  final_score : ℚ
  recommendation : String
  explanation : String
  candidate_id : String
  hiring_profile_id : String
deriving DecidableEq, Repr

/-- Embeds the scoring tail of `CandidateJobMatcher.compute_match`
(lines 82-112): normalization of the screening score, the weighted blend,
the 0-10 scaling, rounding, recommendation and explanation, given the
already-computed similarity.  `sw` and `scw` are the matcher's
`similarity_weight` and `screening_weight` state. -/
def matchScores (sw scw sim screening : ℚ) (cid hpid : String) : MatchResult :=
  let normalized_screening := screening / 10
  let final_score := sw * sim + scw * normalized_screening
  let final_score_scaled := final_score * 10
  { similarity_score := roundTo 3 sim
    screening_score := roundTo 2 screening
    final_score := roundTo 2 final_score_scaled
    recommendation := getRecommendation final_score_scaled
    explanation := generateExplanation sim screening
    candidate_id := cid
    hiring_profile_id := hpid }

/-- Embeds `CandidateJobMatcher.compute_match`: empty-embedding check,
screening-score range check, cosine similarity (which fails on a dimension
mismatch), then the scoring tail. -/
def computeMatch (sw scw : ℚ) (hiring_embedding candidate_embedding : List ℚ)
    (screening_score : ℚ) (cid hpid : String) : Except String MatchResult :=
  if hiring_embedding = [] ∨ candidate_embedding = [] then
    .error "Both embeddings must be provided"
  else if screening_score < 0 ∨ screening_score > 10 then
    .error "Screening score must be between 0 and 10"
  else
    (computeCosineSimilarity hiring_embedding candidate_embedding).map
      (fun sim => matchScores sw scw sim screening_score cid hpid)

/-- Candidate dictionary as consumed by
`CandidateJobMatcher.batch_match_candidates`; `none` models an absent key
(the code reads them with `.get("embedding", [])` and
`.get("screening_score", 5.0)`). -/
structure Candidate where
  embedding : Option (List ℚ)
  screening_score : Option ℚ
  id : String
  hiring_profile_id : String

/-- One element of the batch result list: either a full match result or the
sentinel error dictionary `{"candidate_id": ..., "error": ..., "final_score": -1}`. -/
inductive BatchItem where
  | success (r : MatchResult)
  | failure (candidate_id : String) (err : String)
deriving DecidableEq, Repr

/-- Sort key used by `batch_match_candidates`: `x.get("final_score", -1)`. -/
def BatchItem.finalScore : BatchItem → ℚ
  | .success r => r.final_score
  | .failure _ _ => -1

/-- Per-candidate body of the loop in `batch_match_candidates`: compute the
match, catching any exception into the sentinel error result. -/
def matchCandidate (sw scw : ℚ) (hiring_embedding : List ℚ) (c : Candidate) : BatchItem :=
  match computeMatch sw scw hiring_embedding (c.embedding.getD [])
      (c.screening_score.getD 5) c.id c.hiring_profile_id with
  | .ok r => .success r
  | .error e => .failure c.id e

/-- Comparison used for the batch sort: descending by
`x.get("final_score", -1)` (an item may precede another when its score is at
least as large). -/
def batchLe (x y : BatchItem) : Bool := decide (y.finalScore ≤ x.finalScore)

/-- Embeds `CandidateJobMatcher.batch_match_candidates`: map every candidate
through `compute_match` with per-item error capture, then stable-sort by
final score, descending (Python's `list.sort(key=..., reverse=True)`). -/
def batchMatchCandidates (sw scw : ℚ) (hiring_embedding : List ℚ)
    (candidates : List Candidate) : List BatchItem :=
  (candidates.map (matchCandidate sw scw hiring_embedding)).mergeSort batchLe

/-- Check used when deciding where the descending sort placed an item:
`true` exactly on the sentinel error results. -/
def BatchItem.isSentinel : BatchItem → Bool
  | .success _ => false
  | .failure _ _ => true

/-- Row of the `feedback` table (`FeedbackCollector.record_feedback` insert);
`created_at` is modelled by the position in the store list. -/
structure FeedbackEntry where
  candidate_id : String
  hiring_manager_id : String
  final_score : ℚ
  feedback : String
  notes : Option String
deriving DecidableEq, Repr

/-- Row of the `weight_history` table. -/
structure WeightHistoryRecord where
  similarity_weight : ℚ
  screening_weight : ℚ
  confidence : ℚ
  trigger_action : String
  feedback_count : ℕ
deriving DecidableEq, Repr

/-- In-memory and persisted state of one `FeedbackCollector` instance: the
feedback table (oldest first), the current weights and confidence, the
weight-history table, and a flag saying whether SQLite operations succeed
(`false` models a storage fault; every read and write goes through it). -/
structure FBState where
  store : List FeedbackEntry
  similarity_weight : ℚ
  screening_weight : ℚ
  confidence : ℚ
  history : List WeightHistoryRecord
  dbOk : Bool
deriving DecidableEq, Repr

/-- State right after `FeedbackCollector.__init__` with a healthy database. -/
def initState : FBState :=
  { store := [], similarity_weight := 6/10, screening_weight := 4/10,
    confidence := 1/2, history := [], dbOk := true }

/-- `self.learning_rate` (0.05). -/
def learningRate : ℚ := 1/20

/-- `self.min_feedback_for_adjustment`. -/
def minFeedbackForAdjustment : ℕ := 5

/-- Raw `SELECT COUNT(*) FROM feedback`, fallible. -/
def dbCount (s : FBState) : Except String ℕ :=
  if s.dbOk then .ok s.store.length else .error "database error"

/-- Raw `SELECT ... ORDER BY created_at DESC LIMIT ?`, fallible; most recent
entry first. -/
def dbRecent (s : FBState) (limit : ℕ) : Except String (List FeedbackEntry) :=
  if s.dbOk then .ok (s.store.reverse.take limit) else .error "database error"

/-- Embeds `FeedbackCollector._get_feedback_count`: swallows storage errors
and returns 0. -/
def getFeedbackCount (s : FBState) : ℕ :=
  match dbCount s with
  | .ok n => n
  | .error _ => 0

/-- Embeds `FeedbackCollector._get_recent_feedback`: swallows storage errors
and returns the empty list. -/
def getRecentFeedback (s : FBState) (limit : ℕ) : List FeedbackEntry :=
  match dbRecent s limit with
  | .ok l => l
  | .error _ => []

/-- Mean of the final scores in a feedback subset (`sum(...) / len(...)`). -/
def avgScore (l : List FeedbackEntry) : ℚ :=
  (l.map (fun f => f.final_score)).sum / l.length

/-- Embeds `FeedbackCollector._record_weight_adjustment`: appends one
history row, swallowing storage errors. -/
def recordWeightAdjustment (s : FBState) (trigger_action : String)
    (feedback_count : ℕ) : FBState :=
  if s.dbOk then
    { s with history := s.history ++
        [{ similarity_weight := s.similarity_weight,
           screening_weight := s.screening_weight,
           confidence := s.confidence,
           trigger_action := trigger_action,
           feedback_count := feedback_count }] }
  else s

/-- Embeds lines 246-255 of `_adjust_weights_based_on_feedback`: if either
delta is non-zero, clamp `similarity_weight` to [0.3, 0.8] and
`screening_weight` to [0.2, 0.7], then divide both by their sum when that
sum is positive. -/
def clampNormalize (s : FBState) (delta_similarity delta_screening : ℚ) : FBState :=
  if delta_similarity ≠ 0 ∨ delta_screening ≠ 0 then
    let sw := max (3/10) (min (8/10) (s.similarity_weight + delta_similarity))
    let scw := max (1/5) (min (7/10) (s.screening_weight + delta_screening))
    let total := sw + scw
    if total > 0 then
      { s with similarity_weight := sw / total, screening_weight := scw / total }
    else
      { s with similarity_weight := sw, screening_weight := scw }
  else s

/-- Embeds `FeedbackCollector._adjust_weights_based_on_feedback`: examine
the (at most 10) most recent entries, partition them by label, take each
subset's mean final score (5.0 when the subset is empty), pick the first
matching rule of the four-row rule table (delta pair, trigger text,
confidence update), apply the deltas through clamping and re-normalization,
and append one history row.  The four-row rule chain of lines 222-244 is
`ruleTable`: each row yields (delta_similarity, delta_screening,
trigger_action, new confidence), rows tested in priority order, the final
row the no-match default. -/
def ruleTable (good_fits not_fits : List FeedbackEntry)
    (avg_good_fit_score avg_not_fit_score confidence : ℚ) : ℚ × ℚ × String × ℚ :=
  if not_fits ≠ [] ∧ avg_not_fit_score > 13/2 then
    (-learningRate, learningRate,
      "Reduce similarity weight (false positives detected)", confidence)
  else if good_fits ≠ [] ∧ avg_good_fit_score < 5 then
    (-(learningRate * (1/4)), learningRate * (1/2),
      "Increase screening weight (good low-score candidates)", confidence)
  else if good_fits ≠ [] ∧ avg_good_fit_score > 15/2 then
    (learningRate * (3/10), learningRate * (1/5),
      "Reinforce current weights (strong matches)",
      min (19/20) (confidence + 1/10))
  else if not_fits ≠ [] ∧ avg_not_fit_score < 5 then
    (0, 0, "Low scores consistently rejected (good filtering)",
      min (19/20) (confidence + 1/20))
  else (0, 0, "", confidence)

/-- Embeds `FeedbackCollector._adjust_weights_based_on_feedback` using
`ruleTable` and `clampNormalize` for its two inner steps. -/
def adjustWeightsBasedOnFeedback (s : FBState) : FBState :=
  let feedback_data := getRecentFeedback s 10
  if feedback_data = [] then s
  else
    let good_fits := feedback_data.filter (fun f => f.feedback = "Good Fit")
    let not_fits := feedback_data.filter (fun f => f.feedback = "Not a Fit")
    let avg_good_fit_score := if good_fits = [] then 5 else avgScore good_fits
    let avg_not_fit_score := if not_fits = [] then 5 else avgScore not_fits
    let p := ruleTable good_fits not_fits avg_good_fit_score avg_not_fit_score
      s.confidence
    let s1 := { s with confidence := p.2.2.2 }
    let s2 := clampNormalize s1 p.1 p.2.1
    recordWeightAdjustment s2 p.2.2.1 feedback_data.length

/-- Embeds `FeedbackCollector._try_adjust_weights`. -/
def tryAdjustWeights (s : FBState) : FBState :=
  if minFeedbackForAdjustment ≤ getFeedbackCount s then
    adjustWeightsBasedOnFeedback s
  else s

/-- Embeds `FeedbackCollector.record_feedback`: validate the feedback
literal, insert the row (fails on a storage error), run the adjustment
trigger, and return the new row id (`lastrowid`, the count so far plus
one). -/
def recordFeedback (s : FBState) (candidate_id hiring_manager_id : String)
    (final_score : ℚ) (feedback : String) (notes : Option String) :
    Except String (FBState × ℕ) :=
  if feedback ≠ "Good Fit" ∧ feedback ≠ "Not a Fit" then
    .error "Feedback must be Good Fit or Not a Fit"
  else if s.dbOk = false then
    .error "Failed to record feedback: database error"
  else
    let s1 :=
      { s with store := s.store ++
          [{ candidate_id := candidate_id, hiring_manager_id := hiring_manager_id,
             final_score := final_score, feedback := feedback, notes := notes }] }
    .ok (tryAdjustWeights s1, s.store.length + 1)

/-- Fold `record_feedback` over a list of (candidate, manager, score,
feedback) tuples, stopping at the first error. -/
def recordMany (s : FBState)
    (entries : List (String × String × ℚ × String)) : Except String FBState :=
  entries.foldlM
    (fun st e => (recordFeedback st e.1 e.2.1 e.2.2.1 e.2.2.2 none).map Prod.fst) s

/-- Dictionary returned by `FeedbackCollector.get_weights`; `updated_at`
carries the wall-clock instant of the call (`datetime.now()`), supplied
here as an explicit argument. -/
structure WeightsSnapshot where
  similarity_weight : ℚ
  screening_weight : ℚ
  confidence : ℚ
  total_feedback : ℕ
  updated_at : ℕ
deriving DecidableEq, Repr

/-- Embeds `FeedbackCollector.get_weights`. -/
def getWeights (s : FBState) (now : ℕ) : WeightsSnapshot :=
  { similarity_weight := roundTo 3 s.similarity_weight,
    screening_weight := roundTo 3 s.screening_weight,
    confidence := roundTo 3 s.confidence,
    total_feedback := getFeedbackCount s,
    updated_at := now }

/-- One row of the per-label score statistics in the analytics payload. -/
structure ScoreStat where
  feedback : String
  avg_score : ℚ
  count : ℕ
deriving DecidableEq, Repr

/-- Payload of `FeedbackCollector.get_feedback_analytics`; `none` fields
model keys absent from the degraded error dictionary. -/
structure AnalyticsPayload where
  total_feedback : ℕ
  good_fit_count : Option ℕ
  not_fit_count : Option ℕ
  good_fit_percentage : Option ℚ
  score_statistics : Option (List ScoreStat)
  current_weights : Option WeightsSnapshot
  err : Option String
deriving DecidableEq, Repr

/-- Embeds `FeedbackCollector.get_feedback_analytics`: full report on a
healthy store, and on any storage error the degraded dictionary
`{"total_feedback": 0, "error": ...}`.  Total as a Lean function, it can
never raise. -/
def getFeedbackAnalytics (s : FBState) (now : ℕ) : AnalyticsPayload :=
  match dbCount s with
  | .error e =>
    { total_feedback := 0, good_fit_count := none, not_fit_count := none,
      good_fit_percentage := none, score_statistics := none,
      current_weights := none, err := some e }
  | .ok total =>
    let good := s.store.filter (fun f => f.feedback = "Good Fit")
    let notf := s.store.filter (fun f => f.feedback = "Not a Fit")
    let stats :=
      (if good = [] then [] else
        [{ feedback := "Good Fit", avg_score := roundTo 2 (avgScore good),
           count := good.length : ScoreStat }])
      ++ (if notf = [] then [] else
        [{ feedback := "Not a Fit", avg_score := roundTo 2 (avgScore notf),
           count := notf.length : ScoreStat }])
    { total_feedback := total,
      good_fit_count := some good.length,
      not_fit_count := some notf.length,
      good_fit_percentage :=
        some (if 0 < total then roundTo 1 ((good.length : ℚ) / total * 100) else 0),
      score_statistics := some stats,
      current_weights := some (getWeights s now),
      err := none }

/-- Embeds `FeedbackCollector.reset_weights`. -/
def resetWeights (s : FBState) : FBState :=
  let s1 :=
    { s with
        similarity_weight := 6/10
        screening_weight := 4/10
        confidence := 1/2 }
  recordWeightAdjustment s1 "Manual reset to defaults" (getFeedbackCount s1)

/-- A single Not-a-Fit feedback entry with final score 9 (used to replay
the feedback scenario concretely). -/
def notFitNine : FeedbackEntry :=
  { candidate_id := "c", hiring_manager_id := "m", final_score := 9,
    feedback := "Not a Fit", notes := none }

/-- Collector state after `k` such entries have been inserted with the
weights still at their defaults. -/
def scenarioState (k : ℕ) : FBState :=
  { store := List.replicate k notFitNine, similarity_weight := 6/10,
    screening_weight := 4/10, confidence := 1/2, history := [], dbOk := true }

/-- Invariant claimed for the weight pair: sum within 1e-6 of 1 and both
weights inside their clamp ranges. -/
def WeightInvW (sw scw : ℚ) : Prop :=
  |sw + scw - 1| ≤ 1/1000000
  ∧ 3/10 ≤ sw ∧ sw ≤ 8/10 ∧ 1/5 ≤ scw ∧ scw ≤ 7/10

/-- The weight invariant read off a collector state. -/
def WeightInv (s : FBState) : Prop :=
  WeightInvW s.similarity_weight s.screening_weight

/-- C1: for every screening score in [0,10], similarity value and weight
state, the scoring tail of `compute_match` reports
`final_score = roundTo 2 ((sw * sim + scw * (screening/10)) * 10)` and
`similarity_score = roundTo 3 sim`; with the default weights 0.6/0.4,
similarity 0.9 and screening 8, the final score is 8.6 and the
recommendation is the STRONG MATCH tier. -/
theorem compute_match_final_score_formula (sw scw sim sc : ℚ) (cid hpid : String)
    (h0 : 0 ≤ sc) (h10 : sc ≤ 10) :
    ((matchScores sw scw sim sc cid hpid).final_score
        = roundTo 2 ((sw * sim + scw * (sc / 10)) * 10)
      ∧ (matchScores sw scw sim sc cid hpid).similarity_score = roundTo 3 sim)
    ∧ (matchScores (6/10) (4/10) (9/10) 8 "" "").final_score = 86/10
    ∧ (matchScores (6/10) (4/10) (9/10) 8 "" "").recommendation
        = "STRONG MATCH - Recommend immediate interview/next round" := by
  refine ⟨⟨rfl, rfl⟩, ?_, ?_⟩ <;> norm_num [matchScores, roundTo, getRecommendation]

/-- Witness for C1 at the scenario input (weights 0.6/0.4, similarity 0.9,
screening 8). -/
theorem compute_match_final_score_formula_witness :
    (matchScores (6/10) (4/10) (9/10) 8 "" "").final_score
      = roundTo 2 (((6/10) * (9/10) + (4/10) * ((8:ℚ) / 10)) * 10) :=
  (compute_match_final_score_formula (6/10) (4/10) (9/10) 8 "" ""
    (by norm_num) (by norm_num)).1.1

/-- C2: the recommendation is the first matching tier in descending
threshold order — ≥8 STRONG, else ≥7 GOOD, else ≥6 MODERATE, else ≥5 WEAK,
else POOR — with exact boundaries: 8.0 is STRONG and 7.999 is GOOD. -/
theorem recommendation_tiers (f : ℚ) :
    (8 ≤ f → getRecommendation f
        = "STRONG MATCH - Recommend immediate interview/next round")
    ∧ (7 ≤ f → f < 8 → getRecommendation f
        = "GOOD MATCH - Recommend for consideration")
    ∧ (6 ≤ f → f < 7 → getRecommendation f
        = "MODERATE MATCH - Consider if other candidates limited")
    ∧ (5 ≤ f → f < 6 → getRecommendation f
        = "WEAK MATCH - Not recommended at this time")
    ∧ (f < 5 → getRecommendation f = "POOR MATCH - Do not recommend")
    ∧ getRecommendation 8
        = "STRONG MATCH - Recommend immediate interview/next round"
    ∧ getRecommendation (7999/1000) = "GOOD MATCH - Recommend for consideration" := by
  refine ⟨?_, ?_, ?_, ?_, ?_, by norm_num [getRecommendation],
    by norm_num [getRecommendation]⟩ <;>
    · intros
      unfold getRecommendation
      split_ifs <;> first | rfl | linarith

/-- Witness for C2 at `f = 8` (discharging the first implication) and at
`f = 7.999` (discharging the second). -/
theorem recommendation_tiers_witness :
    getRecommendation 8 = "STRONG MATCH - Recommend immediate interview/next round"
    ∧ getRecommendation (7999/1000) = "GOOD MATCH - Recommend for consideration" :=
  ⟨(recommendation_tiers 8).1 (by norm_num),
   ((recommendation_tiers (7999/1000)).2.1 (by norm_num) (by norm_num))⟩

/-- Rounding to a fixed number of decimals is monotone. -/
theorem roundTo_mono (n : ℕ) {x y : ℚ} (h : x ≤ y) : roundTo n x ≤ roundTo n y := by
  unfold roundTo
  have hpow : (0:ℚ) < 10 ^ n := by positivity
  have h1 : x * 10 ^ n ≤ y * 10 ^ n := mul_le_mul_of_nonneg_right h hpow.le
  have h2 : round (x * 10 ^ n) ≤ round (y * 10 ^ n) := by
    rw [round_eq, round_eq]
    exact Int.floor_le_floor (by linarith)
  have h3 : ((round (x * 10 ^ n) : ℤ) : ℚ) ≤ ((round (y * 10 ^ n) : ℤ) : ℚ) := by
    exact_mod_cast h2
  gcongr

/-- C9: with the weights fixed and non-negative, the final score reported by
`compute_match` is monotonically non-decreasing in the similarity with the
screening score held fixed, and in the screening score with the similarity
held fixed. -/
theorem final_score_monotone (sw scw sc sim sim1 sim2 sc1 sc2 : ℚ) (cid hpid : String)
    (hsw : 0 ≤ sw) (hscw : 0 ≤ scw) :
    (sim1 ≤ sim2 →
      (matchScores sw scw sim1 sc cid hpid).final_score
        ≤ (matchScores sw scw sim2 sc cid hpid).final_score)
    ∧ (sc1 ≤ sc2 →
      (matchScores sw scw sim sc1 cid hpid).final_score
        ≤ (matchScores sw scw sim sc2 cid hpid).final_score) := by
  constructor
  · intro hs
    apply roundTo_mono
    have : sw * sim1 ≤ sw * sim2 := mul_le_mul_of_nonneg_left hs hsw
    nlinarith
  · intro hs
    apply roundTo_mono
    have : scw * (sc1 / 10) ≤ scw * (sc2 / 10) :=
      mul_le_mul_of_nonneg_left (by linarith) hscw
    nlinarith

/-- Witness for C9 with default weights, similarity 0.5 vs 0.9 and
screening 3 vs 7. -/
theorem final_score_monotone_witness :
    ((1/2:ℚ) ≤ 9/10 →
      (matchScores (6/10) (4/10) (1/2) 5 "" "").final_score
        ≤ (matchScores (6/10) (4/10) (9/10) 5 "" "").final_score)
    ∧ ((3:ℚ) ≤ 7 →
      (matchScores (6/10) (4/10) (1/2) 3 "" "").final_score
        ≤ (matchScores (6/10) (4/10) (1/2) 7 "" "").final_score) :=
  final_score_monotone (6/10) (4/10) 5 (1/2) (1/2) (9/10) 3 7 "" ""
    (by norm_num) (by norm_num)

/-- C5: `compute_match` fails whenever either embedding is empty (with the
empty-embedding message, checked first) or, for non-empty embeddings, when
the lengths differ (sklearn's dimension error); for equal-length non-empty
embeddings and an in-range screening score it succeeds with the cosine
similarity mapped to [0,1] via `(cos + 1) / 2`. -/
theorem similarity_error_conditions (sw scw sc : ℚ) (a b : List ℚ) (cid hpid : String)
    (h0 : 0 ≤ sc) (h10 : sc ≤ 10) :
    ((a = [] ∨ b = []) →
      computeMatch sw scw a b sc cid hpid = .error "Both embeddings must be provided")
    ∧ (a ≠ [] → b ≠ [] → a.length ≠ b.length →
      computeMatch sw scw a b sc cid hpid
        = .error "Incompatible dimension for X and Y matrices")
    ∧ (a ≠ [] → b ≠ [] → a.length = b.length →
      computeMatch sw scw a b sc cid hpid
        = .ok (matchScores sw scw ((cosineRaw a b + 1) / 2) sc cid hpid)) := by
  have hsc : ¬ (sc < 0 ∨ sc > 10) := by rintro (h | h) <;> linarith
  refine ⟨?_, ?_, ?_⟩
  · intro h
    simp [computeMatch, h]
  · intro ha hb hlen
    simp [computeMatch, computeCosineSimilarity, ha, hb, hsc, hlen, Except.map]
  · intro ha hb hlen
    simp [computeMatch, computeCosineSimilarity, ha, hb, hsc, hlen, Except.map]

/-- Witness for C5 on the concrete embeddings `[1]` and `[1, 2]` with
screening score 5. -/
theorem similarity_error_conditions_witness :
    ((([1]:List ℚ) = [] ∨ ([1,2]:List ℚ) = []) →
      computeMatch 1 1 [1] [1,2] 5 "" "" = .error "Both embeddings must be provided")
    ∧ (([1]:List ℚ) ≠ [] → ([1,2]:List ℚ) ≠ [] →
        ([1]:List ℚ).length ≠ ([1,2]:List ℚ).length →
      computeMatch 1 1 [1] [1,2] 5 "" ""
        = .error "Incompatible dimension for X and Y matrices")
    ∧ (([1]:List ℚ) ≠ [] → ([1,2]:List ℚ) ≠ [] →
        ([1]:List ℚ).length = ([1,2]:List ℚ).length →
      computeMatch 1 1 [1] [1,2] 5 "" ""
        = .ok (matchScores 1 1 ((cosineRaw [1] [1,2] + 1) / 2) 5 "" "")) :=
  similarity_error_conditions 1 1 5 [1] [1,2] "" "" (by norm_num) (by norm_num)

theorem dotp_nil_left (b : List ℚ) : dotp [] b = 0 := rfl

theorem dotp_nil_right (a : List ℚ) : dotp a [] = 0 := by
  cases a <;> rfl

theorem dotp_cons (x y : ℚ) (a b : List ℚ) :
    dotp (x :: a) (y :: b) = x * y + dotp a b := by
  simp [dotp]

theorem normSq_nonneg (a : List ℚ) : 0 ≤ normSq a := by
  induction a with
  | nil => exact le_refl 0
  | cons x a ih =>
    have h : normSq (x :: a) = x * x + normSq a := dotp_cons x x a a
    rw [h]
    nlinarith [mul_self_nonneg x]

/-- Lagrange-style auxiliary inequality behind Cauchy-Schwarz. -/
theorem dotp_amgm (x y : ℚ) (a b : List ℚ) :
    2 * dotp a b * x * y ≤ normSq a * y ^ 2 + normSq b * x ^ 2 := by
  induction a generalizing b with
  | nil =>
    have h0 : normSq ([] : List ℚ) = 0 := rfl
    rw [dotp_nil_left, h0]
    nlinarith [normSq_nonneg b, sq_nonneg x, sq_nonneg y]
  | cons p a ih =>
    cases b with
    | nil =>
      rw [dotp_nil_right]
      nlinarith [normSq_nonneg (p :: a), normSq_nonneg ([] : List ℚ), sq_nonneg x, sq_nonneg y]
    | cons q b =>
      have hd := dotp_cons p q a b
      have hna : normSq (p :: a) = p * p + normSq a := dotp_cons p p a a
      have hnb : normSq (q :: b) = q * q + normSq b := dotp_cons q q b b
      have ihb := ih b
      rw [hd, hna, hnb]
      nlinarith [sq_nonneg (p * y - q * x)]

/-- Cauchy-Schwarz for the list dot product. -/
theorem dotp_sq_le (a b : List ℚ) : (dotp a b) ^ 2 ≤ normSq a * normSq b := by
  induction a generalizing b with
  | nil =>
    rw [dotp_nil_left]
    simpa using mul_nonneg (normSq_nonneg ([] : List ℚ)) (normSq_nonneg b)
  | cons p a ih =>
    cases b with
    | nil =>
      rw [dotp_nil_right]
      simpa using mul_nonneg (normSq_nonneg (p :: a)) (normSq_nonneg ([] : List ℚ))
    | cons q b =>
      have hd := dotp_cons p q a b
      have hna : normSq (p :: a) = p * p + normSq a := dotp_cons p p a a
      have hnb : normSq (q :: b) = q * q + normSq b := dotp_cons q q b b
      have ihb := ih b
      have haux := dotp_amgm p q a b
      rw [hd, hna, hnb]
      nlinarith [haux]

theorem ratSqrt_nonneg (q : ℚ) : 0 ≤ ratSqrt q := by
  unfold ratSqrt
  split_ifs
  · exact le_refl 0
  · positivity

theorem ratSqrt_pos {q : ℚ} (hq : 0 < q) : 0 < ratSqrt q := by
  unfold ratSqrt
  rw [if_neg (by linarith)]
  have hd : (0:ℚ) < (q.den : ℚ) := by exact_mod_cast q.pos
  positivity

/-- The approximation overshoots the true square root. -/
theorem ratSqrt_sq_gt {q : ℚ} (hq : 0 < q) : q < (ratSqrt q) ^ 2 := by
  unfold ratSqrt
  rw [if_neg (by linarith)]
  set n : ℕ := q.num.toNat with hn
  set d : ℕ := q.den with hdd
  have hd0 : 0 < d := q.pos
  have hdq : (0:ℚ) < (d : ℚ) := by exact_mod_cast hd0
  have hnum : (0:ℤ) < q.num := Rat.num_pos.mpr hq
  have hcast : ((n : ℤ)) = q.num := Int.toNat_of_nonneg hnum.le
  have hq_eq : q = (n : ℚ) / (d : ℚ) := by
    rw [← Rat.num_div_den q]
    congr 1
    exact_mod_cast hcast.symm
  have hnat : n * d < (Nat.sqrt (n * d) + 1) * (Nat.sqrt (n * d) + 1) :=
    Nat.lt_succ_sqrt (n * d)
  have hqq : ((n : ℚ)) * (d : ℚ) < ((Nat.sqrt (n * d) + 1 : ℕ) : ℚ) ^ 2 := by
    have h5 : ((n * d : ℕ) : ℚ)
        < (((Nat.sqrt (n * d) + 1) * (Nat.sqrt (n * d) + 1) : ℕ) : ℚ) := by
      exact_mod_cast hnat
    push_cast at h5 ⊢
    nlinarith [h5]
  rw [hq_eq, div_pow, lt_div_iff (by positivity)]
  calc (n : ℚ) / (d : ℚ) * (d : ℚ) ^ 2 = (n : ℚ) * (d : ℚ) := by
        field_simp
        ring
    _ < ((Nat.sqrt (n * d) + 1 : ℕ) : ℚ) ^ 2 := hqq

/-- The raw cosine value lies in [-1, 1]. -/
theorem cosineRaw_bounds (a b : List ℚ) : -1 ≤ cosineRaw a b ∧ cosineRaw a b ≤ 1 := by
  unfold cosineRaw
  rcases eq_or_lt_of_le (normSq_nonneg a) with hna | hna
  · rw [← hna]
    unfold ratSqrt
    norm_num
  rcases eq_or_lt_of_le (normSq_nonneg b) with hnb | hnb
  · rw [← hnb]
    unfold ratSqrt
    norm_num
  have hsa := ratSqrt_pos hna
  have hsb := ratSqrt_pos hnb
  have hD : 0 < ratSqrt (normSq a) * ratSqrt (normSq b) := mul_pos hsa hsb
  have hD2 : (dotp a b) ^ 2 < (ratSqrt (normSq a) * ratSqrt (normSq b)) ^ 2 := by
    have h1 := ratSqrt_sq_gt hna
    have h2 := ratSqrt_sq_gt hnb
    have h3 := dotp_sq_le a b
    have h4 : normSq a * normSq b
        < (ratSqrt (normSq a)) ^ 2 * (ratSqrt (normSq b)) ^ 2 := by
      nlinarith [sq_nonneg (ratSqrt (normSq a)), sq_nonneg (ratSqrt (normSq b))]
    nlinarith
  constructor
  · rw [le_div_iff hD]
    nlinarith
  · rw [div_le_one hD]
    nlinarith

/-- On the success path the reported final score is non-negative (needs
non-negative weights). -/
theorem computeMatch_ok_nonneg {sw scw sc : ℚ} {a b : List ℚ} {cid hpid : String}
    {r : MatchResult} (hsw : 0 ≤ sw) (hscw : 0 ≤ scw)
    (h : computeMatch sw scw a b sc cid hpid = .ok r) : 0 ≤ r.final_score := by
  unfold computeMatch at h
  split_ifs at h with h1 h2
  unfold computeCosineSimilarity at h
  split_ifs at h with h3
  · exact absurd h (by simp [Except.map])
  simp only [Except.map, Except.ok.injEq] at h
  push_neg at h2
  obtain ⟨hb1, hb2⟩ := h2
  have hsim := cosineRaw_bounds a b
  have hsim0 : 0 ≤ (cosineRaw a b + 1) / 2 := by linarith [hsim.1]
  have hfinal : 0 ≤ (sw * ((cosineRaw a b + 1) / 2) + scw * (sc / 10)) * 10 := by
    have := mul_nonneg hsw hsim0
    have := mul_nonneg hscw (by linarith : (0:ℚ) ≤ sc / 10)
    nlinarith
  rw [← h]
  show 0 ≤ roundTo 2 _
  have := roundTo_mono 2 hfinal
  simpa [roundTo] using this

theorem batchLe_trans : ∀ a b c : BatchItem, batchLe a b → batchLe b c → batchLe a c := by
  intro a b c h1 h2
  simp only [batchLe, decide_eq_true_eq] at h1 h2 ⊢
  exact le_trans h2 h1

theorem batchLe_total : ∀ a b : BatchItem, batchLe a b || batchLe b a := by
  intro a b
  simp only [batchLe, Bool.or_eq_true, decide_eq_true_eq]
  exact le_total _ _

theorem isSentinel_finalScore {x : BatchItem} (h : x.isSentinel = true) :
    x.finalScore = -1 := by
  cases x with
  | success r => simp [BatchItem.isSentinel] at h
  | failure c e => rfl

theorem matchCandidate_success {sw scw : ℚ} {h : List ℚ} {c : Candidate}
    {r : MatchResult} (he : matchCandidate sw scw h c = .success r) :
    computeMatch sw scw h (c.embedding.getD []) (c.screening_score.getD 5)
      c.id c.hiring_profile_id = .ok r := by
  unfold matchCandidate at he
  split at he
  · rename_i r' hr
    cases he
    exact hr
  · cases he

/-- C10: in `batch_match_candidates`, an absent screening score defaults to
5.0, an absent or empty embedding yields the sentinel error result instead
of aborting the batch (the output has one entry per candidate), and in the
descending sort every sentinel is placed after every successful result. -/
theorem batch_defaults_and_sentinel_order (sw scw : ℚ) (h : List ℚ)
    (cands : List Candidate) (c : Candidate) (hsw : 0 ≤ sw) (hscw : 0 ≤ scw) :
    (c.screening_score = none →
      matchCandidate sw scw h c
        = match computeMatch sw scw h (c.embedding.getD []) 5 c.id c.hiring_profile_id with
          | .ok r => .success r
          | .error e => .failure c.id e)
    ∧ ((c.embedding = none ∨ c.embedding = some []) →
      matchCandidate sw scw h c = .failure c.id "Both embeddings must be provided")
    ∧ (batchMatchCandidates sw scw h cands).length = cands.length
    ∧ (∀ (i j : ℕ) (hi : i < (batchMatchCandidates sw scw h cands).length)
        (hj : j < (batchMatchCandidates sw scw h cands).length), i ≤ j →
        ((batchMatchCandidates sw scw h cands).get ⟨i, hi⟩).isSentinel = true →
        ((batchMatchCandidates sw scw h cands).get ⟨j, hj⟩).isSentinel = true) := by
  refine ⟨?_, ?_, ?_, ?_⟩
  · intro hsc
    simp [matchCandidate, hsc]
  · intro he
    have hemb : c.embedding.getD [] = [] := by
      rcases he with he | he <;> simp [he]
    simp [matchCandidate, computeMatch, hemb]
  · simp [batchMatchCandidates]
  · intro i j hi hj hij hsent
    rcases Nat.eq_or_lt_of_le hij with rfl | hlt
    · exact hsent
    have hpw := List.sorted_mergeSort batchLe_trans batchLe_total
      (cands.map (matchCandidate sw scw h))
    have hrel := (List.pairwise_iff_get.mp hpw) ⟨i, hi⟩ ⟨j, hj⟩ hlt
    have hle : ((batchMatchCandidates sw scw h cands).get ⟨j, hj⟩).finalScore
        ≤ ((batchMatchCandidates sw scw h cands).get ⟨i, hi⟩).finalScore := by
      simpa [batchLe, batchMatchCandidates] using hrel
    rw [isSentinel_finalScore hsent] at hle
    set x := (batchMatchCandidates sw scw h cands).get ⟨j, hj⟩ with hx
    cases hcx : x with
    | failure cid e => rfl
    | success r =>
      exfalso
      have hmem : x ∈ batchMatchCandidates sw scw h cands := by
        rw [hx]
        exact List.get_mem _ _ _
      have hmem2 : x ∈ cands.map (matchCandidate sw scw h) := by
        simpa [batchMatchCandidates] using hmem
      rcases List.mem_map.mp hmem2 with ⟨c', _, hc'⟩
      have hok := matchCandidate_success (r := r) (by rw [hc', hcx])
      have hnn := computeMatch_ok_nonneg hsw hscw hok
      rw [hcx] at hle
      simp only [BatchItem.finalScore] at hle
      linarith

/-- Witness for C10 on a two-candidate batch: one with an embedding but no
screening score, one with no embedding. -/
theorem batch_defaults_and_sentinel_order_witness :
    ((Candidate.mk (some [1]) none "a" "").screening_score = none →
      matchCandidate (6/10) (4/10) [1] (Candidate.mk (some [1]) none "a" "")
        = match computeMatch (6/10) (4/10) [1]
            ((Candidate.mk (some [1]) none "a" "").embedding.getD []) 5
            (Candidate.mk (some [1]) none "a" "").id
            (Candidate.mk (some [1]) none "a" "").hiring_profile_id with
          | .ok r => .success r
          | .error e => .failure (Candidate.mk (some [1]) none "a" "").id e)
    ∧ (((Candidate.mk (some [1]) none "a" "").embedding = none
        ∨ (Candidate.mk (some [1]) none "a" "").embedding = some []) →
      matchCandidate (6/10) (4/10) [1] (Candidate.mk (some [1]) none "a" "")
        = .failure "a" "Both embeddings must be provided")
    ∧ (batchMatchCandidates (6/10) (4/10) [1]
        [Candidate.mk (some [1]) none "a" "", Candidate.mk none (some 5) "b" ""]).length
      = [Candidate.mk (some [1]) none "a" "", Candidate.mk none (some 5) "b" ""].length
    ∧ (∀ (i j : ℕ)
        (hi : i < (batchMatchCandidates (6/10) (4/10) [1]
          [Candidate.mk (some [1]) none "a" "", Candidate.mk none (some 5) "b" ""]).length)
        (hj : j < (batchMatchCandidates (6/10) (4/10) [1]
          [Candidate.mk (some [1]) none "a" "", Candidate.mk none (some 5) "b" ""]).length),
        i ≤ j →
        ((batchMatchCandidates (6/10) (4/10) [1]
          [Candidate.mk (some [1]) none "a" "", Candidate.mk none (some 5) "b" ""]).get
            ⟨i, hi⟩).isSentinel = true →
        ((batchMatchCandidates (6/10) (4/10) [1]
          [Candidate.mk (some [1]) none "a" "", Candidate.mk none (some 5) "b" ""]).get
            ⟨j, hj⟩).isSentinel = true) :=
  batch_defaults_and_sentinel_order (6/10) (4/10) [1]
    [Candidate.mk (some [1]) none "a" "", Candidate.mk none (some 5) "b" ""]
    (Candidate.mk (some [1]) none "a" "") (by norm_num) (by norm_num)

theorem recordWeightAdjustment_fields (s : FBState) (a : String) (n : ℕ) :
    (recordWeightAdjustment s a n).similarity_weight = s.similarity_weight
    ∧ (recordWeightAdjustment s a n).screening_weight = s.screening_weight
    ∧ (recordWeightAdjustment s a n).store = s.store
    ∧ (recordWeightAdjustment s a n).confidence = s.confidence := by
  unfold recordWeightAdjustment
  split_ifs <;> exact ⟨rfl, rfl, rfl, rfl⟩

theorem clampNormalize_store (s : FBState) (d1 d2 : ℚ) :
    (clampNormalize s d1 d2).store = s.store := by
  unfold clampNormalize
  split_ifs with h
  · dsimp only
    split_ifs <;> rfl
  · rfl

/-- Either `clampNormalize` leaves the weights untouched (zero deltas), or
it produces weights inside the clamp ranges summing to exactly 1. -/
theorem clampNormalize_weights (s : FBState) (d1 d2 : ℚ) :
    ((clampNormalize s d1 d2).similarity_weight = s.similarity_weight
      ∧ (clampNormalize s d1 d2).screening_weight = s.screening_weight)
    ∨ (3/10 ≤ (clampNormalize s d1 d2).similarity_weight
      ∧ (clampNormalize s d1 d2).similarity_weight ≤ 8/10
      ∧ 1/5 ≤ (clampNormalize s d1 d2).screening_weight
      ∧ (clampNormalize s d1 d2).screening_weight ≤ 7/10
      ∧ (clampNormalize s d1 d2).similarity_weight
          + (clampNormalize s d1 d2).screening_weight = 1) := by
  by_cases hd : d1 ≠ 0 ∨ d2 ≠ 0
  · set cs := max (3/10) (min (8/10) (s.similarity_weight + d1)) with hcs
    set cc := max (1/5) (min (7/10) (s.screening_weight + d2)) with hcc
    have hcs1 : 3/10 ≤ cs := le_max_left _ _
    have hcs2 : cs ≤ 8/10 := max_le (by norm_num) (min_le_left _ _)
    have hcc1 : 1/5 ≤ cc := le_max_left _ _
    have hcc2 : cc ≤ 7/10 := max_le (by norm_num) (min_le_left _ _)
    have htot : (0:ℚ) < cs + cc := by linarith
    have hkey : clampNormalize s d1 d2 =
        if 0 < cs + cc
        then { s with
                similarity_weight := cs / (cs + cc)
                screening_weight := cc / (cs + cc) }
        else { s with similarity_weight := cs, screening_weight := cc } := by
      unfold clampNormalize
      rw [if_pos hd]
    rw [hkey, if_pos htot]
    right
    dsimp only
    refine ⟨?_, ?_, ?_, ?_, ?_⟩
    · rw [le_div_iff htot]
      linarith
    · rw [div_le_iff htot]
      linarith
    · rw [le_div_iff htot]
      linarith
    · rw [div_le_iff htot]
      linarith
    · rw [div_add_div_same, div_self htot.ne']
  · rw [show clampNormalize s d1 d2 = s by unfold clampNormalize; rw [if_neg hd]]
    left
    exact ⟨rfl, rfl⟩

/-- Shape of one non-trivial adjustment pass: some rule output `p` is fed
through confidence update, clamping/normalization and the history write. -/
theorem adjust_weights_after (s : FBState) (hfd : getRecentFeedback s 10 ≠ []) :
    ∃ p : ℚ × ℚ × String × ℚ,
      adjustWeightsBasedOnFeedback s
        = recordWeightAdjustment
            (clampNormalize { s with confidence := p.2.2.2 } p.1 p.2.1)
            p.2.2.1 (getRecentFeedback s 10).length := by
  unfold adjustWeightsBasedOnFeedback
  dsimp only
  rw [if_neg hfd]
  exact ⟨_, rfl⟩

theorem adjust_weights_id (s : FBState) (hfd : getRecentFeedback s 10 = []) :
    adjustWeightsBasedOnFeedback s = s := by
  unfold adjustWeightsBasedOnFeedback
  dsimp only
  rw [if_pos hfd]

/-- Any adjustment pass either keeps the weights or yields clamped,
exactly-normalized weights. -/
theorem adjust_weights_cases (s : FBState) :
    ((adjustWeightsBasedOnFeedback s).similarity_weight = s.similarity_weight
      ∧ (adjustWeightsBasedOnFeedback s).screening_weight = s.screening_weight)
    ∨ (3/10 ≤ (adjustWeightsBasedOnFeedback s).similarity_weight
      ∧ (adjustWeightsBasedOnFeedback s).similarity_weight ≤ 8/10
      ∧ 1/5 ≤ (adjustWeightsBasedOnFeedback s).screening_weight
      ∧ (adjustWeightsBasedOnFeedback s).screening_weight ≤ 7/10
      ∧ (adjustWeightsBasedOnFeedback s).similarity_weight
          + (adjustWeightsBasedOnFeedback s).screening_weight = 1) := by
  by_cases hfd : getRecentFeedback s 10 = []
  · left
    rw [adjust_weights_id s hfd]
    exact ⟨rfl, rfl⟩
  · rcases adjust_weights_after s hfd with ⟨p, hp⟩
    rw [hp]
    obtain ⟨h1, h2, -, -⟩ := recordWeightAdjustment_fields
      (clampNormalize { s with confidence := p.2.2.2 } p.1 p.2.1)
      p.2.2.1 (getRecentFeedback s 10).length
    rw [h1, h2]
    exact clampNormalize_weights { s with confidence := p.2.2.2 } p.1 p.2.1

/-- C3: the weight invariant (sum within 1e-6 of 1, both weights inside
their clamp ranges) is preserved by every adjustment pass and established
by every reset; moreover a pass either leaves the weights untouched (zero
delta) or, after clamping, re-normalizes them to sum to exactly 1. -/
theorem weight_invariant_preserved (s : FBState) (h : WeightInv s) :
    WeightInv (adjustWeightsBasedOnFeedback s)
    ∧ WeightInv (resetWeights s)
    ∧ (((adjustWeightsBasedOnFeedback s).similarity_weight = s.similarity_weight
        ∧ (adjustWeightsBasedOnFeedback s).screening_weight = s.screening_weight)
      ∨ (adjustWeightsBasedOnFeedback s).similarity_weight
          + (adjustWeightsBasedOnFeedback s).screening_weight = 1) := by
  have hcases := adjust_weights_cases s
  refine ⟨?_, ?_, ?_⟩
  · rcases hcases with ⟨h1, h2⟩ | ⟨h1, h2, h3, h4, h5⟩
    · unfold WeightInv WeightInvW at h ⊢
      rw [h1, h2]
      exact h
    · unfold WeightInv WeightInvW
      refine ⟨?_, h1, h2, h3, h4⟩
      rw [h5]
      norm_num
  · unfold resetWeights
    obtain ⟨h1, h2, -, -⟩ := recordWeightAdjustment_fields _ "Manual reset to defaults" _
    unfold WeightInv WeightInvW
    rw [h1, h2]
    dsimp only
    norm_num
  · rcases hcases with ⟨h1, h2⟩ | hb
    · exact Or.inl ⟨h1, h2⟩
    · exact Or.inr hb.2.2.2.2

/-- Witness for C3 at the freshly initialized collector state. -/
theorem weight_invariant_preserved_witness :
    WeightInv (adjustWeightsBasedOnFeedback initState)
    ∧ WeightInv (resetWeights initState)
    ∧ (((adjustWeightsBasedOnFeedback initState).similarity_weight
          = initState.similarity_weight
        ∧ (adjustWeightsBasedOnFeedback initState).screening_weight
          = initState.screening_weight)
      ∨ (adjustWeightsBasedOnFeedback initState).similarity_weight
          + (adjustWeightsBasedOnFeedback initState).screening_weight = 1) :=
  weight_invariant_preserved initState
    (by unfold WeightInv WeightInvW initState; norm_num)

theorem record_notFit_step (s : FBState) (hdb : s.dbOk = true) :
    recordFeedback s "c" "m" 9 "Not a Fit" none
      = .ok (tryAdjustWeights { s with store := s.store ++ [notFitNine] },
             s.store.length + 1) := by
  unfold recordFeedback
  rw [if_neg (by simp), if_neg (by simp [hdb])]
  rfl

theorem tryAdjust_small (s : FBState) (h : getFeedbackCount s < 5) :
    tryAdjustWeights s = s := by
  unfold tryAdjustWeights minFeedbackForAdjustment
  rw [if_neg (by omega)]

theorem record_scenario_small (k : ℕ) (hk : k + 1 < 5) :
    recordFeedback (scenarioState k) "c" "m" 9 "Not a Fit" none
      = .ok (scenarioState (k + 1), k + 1) := by
  rw [record_notFit_step _ rfl]
  have hstore : { scenarioState k with
      store := (scenarioState k).store ++ [notFitNine] } = scenarioState (k + 1) := by
    simp [scenarioState, List.replicate_succ']
  rw [hstore, tryAdjust_small]
  · simp [scenarioState]
  · simp only [getFeedbackCount, dbCount, scenarioState]
    simp only [if_true, List.length_replicate]
    omega

set_option maxHeartbeats 1000000 in
theorem adjust_scenario_five :
    (adjustWeightsBasedOnFeedback (scenarioState 5)).similarity_weight = 11/20
    ∧ (adjustWeightsBasedOnFeedback (scenarioState 5)).screening_weight = 9/20 := by
  have hfd : getRecentFeedback (scenarioState 5) 10 = List.replicate 5 notFitNine := by
    simp [getRecentFeedback, dbRecent, scenarioState, List.take_replicate]
  have hgood : (List.replicate 5 notFitNine).filter
      (fun f => f.feedback = "Good Fit") = [] := by
    simp [List.filter_replicate, notFitNine]
  have hnot : (List.replicate 5 notFitNine).filter
      (fun f => f.feedback = "Not a Fit") = List.replicate 5 notFitNine := by
    simp [List.filter_replicate, notFitNine]
  have havg : avgScore (List.replicate 5 notFitNine) = 9 := by
    norm_num [avgScore, notFitNine, List.map_replicate, List.sum_replicate]
  unfold adjustWeightsBasedOnFeedback
  dsimp only
  rw [hfd, hgood, hnot]
  norm_num [havg, ruleTable, clampNormalize, recordWeightAdjustment,
    learningRate, scenarioState]

theorem record_scenario_fifth :
    ∃ st, recordFeedback (scenarioState 4) "c" "m" 9 "Not a Fit" none = .ok (st, 5)
      ∧ st.similarity_weight = 11/20 ∧ st.screening_weight = 9/20 := by
  rw [record_notFit_step _ rfl]
  have hstore : { scenarioState 4 with
      store := (scenarioState 4).store ++ [notFitNine] } = scenarioState 5 := by
    simp [scenarioState, List.replicate_succ']
  rw [hstore]
  have hcount : getFeedbackCount (scenarioState 5) = 5 := by
    simp [getFeedbackCount, dbCount, scenarioState]
  have htry : tryAdjustWeights (scenarioState 5)
      = adjustWeightsBasedOnFeedback (scenarioState 5) := by
    unfold tryAdjustWeights
    rw [if_pos (by rw [hcount]; norm_num [minFeedbackForAdjustment])]
  rw [htry]
  refine ⟨_, ?_, adjust_scenario_five.1, adjust_scenario_five.2⟩
  have hlen : (scenarioState 4).store.length = 4 := by simp [scenarioState]
  rw [hlen]

theorem scenario_weights :
    ∃ st, recordMany initState (List.replicate 5 ("c", "m", (9:ℚ), "Not a Fit"))
        = .ok st
      ∧ st.similarity_weight = 11/20 ∧ st.screening_weight = 9/20 := by
  obtain ⟨st, h5, hw1, hw2⟩ := record_scenario_fifth
  have h0 := record_scenario_small 0 (by norm_num)
  have h1 := record_scenario_small 1 (by norm_num)
  have h2 := record_scenario_small 2 (by norm_num)
  have h3 := record_scenario_small 3 (by norm_num)
  have hrep : List.replicate 5 ("c", "m", (9:ℚ), "Not a Fit")
      = [("c", "m", (9:ℚ), "Not a Fit"), ("c", "m", (9:ℚ), "Not a Fit"),
         ("c", "m", (9:ℚ), "Not a Fit"), ("c", "m", (9:ℚ), "Not a Fit"),
         ("c", "m", (9:ℚ), "Not a Fit")] := rfl
  have hinit : initState = scenarioState 0 := rfl
  refine ⟨st, ?_, hw1, hw2⟩
  rw [hrep, hinit]
  unfold recordMany
  simp only [List.foldlM_cons, List.foldlM_nil]
  simp only [h0, h1, h2, h3, h5, Except.map, Except.bind, bind, pure, Except.pure]

/-- Effect of the first rule of the adjustment rule table. -/
theorem rule_one_fires (s : FBState)
    (hnot : (getRecentFeedback s 10).filter (fun f => f.feedback = "Not a Fit") ≠ [])
    (havg : avgScore ((getRecentFeedback s 10).filter
      (fun f => f.feedback = "Not a Fit")) > 13/2) :
    (adjustWeightsBasedOnFeedback s).similarity_weight
      = max (3/10) (min (8/10) (s.similarity_weight - 1/20))
        / (max (3/10) (min (8/10) (s.similarity_weight - 1/20))
          + max (1/5) (min (7/10) (s.screening_weight + 1/20)))
    ∧ (adjustWeightsBasedOnFeedback s).screening_weight
      = max (1/5) (min (7/10) (s.screening_weight + 1/20))
        / (max (3/10) (min (8/10) (s.similarity_weight - 1/20))
          + max (1/5) (min (7/10) (s.screening_weight + 1/20))) := by
  have hfd : getRecentFeedback s 10 ≠ [] := by
    intro hcon
    apply hnot
    rw [hcon]
    rfl
  unfold adjustWeightsBasedOnFeedback
  dsimp only
  rw [if_neg hfd, if_neg hnot]
  have hrt : ruleTable
      ((getRecentFeedback s 10).filter (fun f => f.feedback = "Good Fit"))
      ((getRecentFeedback s 10).filter (fun f => f.feedback = "Not a Fit"))
      (if (getRecentFeedback s 10).filter (fun f => f.feedback = "Good Fit") = []
        then 5
        else avgScore ((getRecentFeedback s 10).filter
          (fun f => f.feedback = "Good Fit")))
      (avgScore ((getRecentFeedback s 10).filter (fun f => f.feedback = "Not a Fit")))
      s.confidence
      = (-learningRate, learningRate,
        "Reduce similarity weight (false positives detected)", s.confidence) := by
    unfold ruleTable
    rw [if_pos ⟨hnot, havg⟩]
  rw [hrt]
  dsimp only
  obtain ⟨hw1, hw2, -, -⟩ := recordWeightAdjustment_fields
    (clampNormalize { s with confidence := s.confidence } (-learningRate) learningRate)
    "Reduce similarity weight (false positives detected)"
    (getRecentFeedback s 10).length
  rw [hw1, hw2]
  have hne : -learningRate ≠ 0 ∨ learningRate ≠ 0 :=
    Or.inl (by norm_num [learningRate])
  unfold clampNormalize
  rw [if_pos hne]
  dsimp only
  have h1 : (3:ℚ)/10
      ≤ max (3/10) (min (8/10) (s.similarity_weight + -learningRate)) :=
    le_max_left _ _
  have h2 : (1:ℚ)/5
      ≤ max (1/5) (min (7/10) (s.screening_weight + learningRate)) :=
    le_max_left _ _
  rw [if_pos (by linarith :
    (0:ℚ) < max (3/10) (min (8/10) (s.similarity_weight + -learningRate))
      + max (1/5) (min (7/10) (s.screening_weight + learningRate)))]
  dsimp only
  constructor <;> norm_num [learningRate, sub_eq_add_neg]

/-- C4: over the (at most 10) most recent entries, when the Not-a-Fit
subset is non-empty with mean above 6.5, rule 1 fires: the similarity
weight drops by 0.05 and the screening weight rises by 0.05, then the pair
is clamped and re-normalized; replaying 5 Not-a-Fit entries with final
score 9.0 leaves similarity_weight = 0.55 < 0.6 and
screening_weight = 0.45 > 0.4 with the weights summing to 1. -/
theorem adjustment_rule_one_and_scenario (s : FBState)
    (hnot : (getRecentFeedback s 10).filter (fun f => f.feedback = "Not a Fit") ≠ [])
    (havg : avgScore ((getRecentFeedback s 10).filter
      (fun f => f.feedback = "Not a Fit")) > 13/2) :
    ((adjustWeightsBasedOnFeedback s).similarity_weight
      = max (3/10) (min (8/10) (s.similarity_weight - 1/20))
        / (max (3/10) (min (8/10) (s.similarity_weight - 1/20))
          + max (1/5) (min (7/10) (s.screening_weight + 1/20)))
    ∧ (adjustWeightsBasedOnFeedback s).screening_weight
      = max (1/5) (min (7/10) (s.screening_weight + 1/20))
        / (max (3/10) (min (8/10) (s.similarity_weight - 1/20))
          + max (1/5) (min (7/10) (s.screening_weight + 1/20))))
    ∧ (∃ st, recordMany initState
          (List.replicate 5 ("c", "m", (9:ℚ), "Not a Fit")) = .ok st
        ∧ st.similarity_weight < 6/10 ∧ st.screening_weight > 4/10
        ∧ st.similarity_weight + st.screening_weight = 1
        ∧ st.similarity_weight = 11/20 ∧ st.screening_weight = 9/20) := by
  refine ⟨rule_one_fires s hnot havg, ?_⟩
  obtain ⟨st, hok, hw1, hw2⟩ := scenario_weights
  exact ⟨st, hok, by rw [hw1]; norm_num, by rw [hw2]; norm_num,
    by rw [hw1, hw2]; norm_num, hw1, hw2⟩

/-- Witness for C4 at the state holding five Not-a-Fit entries with final
score 9. -/
theorem adjustment_rule_one_and_scenario_witness :
    ((adjustWeightsBasedOnFeedback (scenarioState 5)).similarity_weight
      = max (3/10) (min (8/10) ((scenarioState 5).similarity_weight - 1/20))
        / (max (3/10) (min (8/10) ((scenarioState 5).similarity_weight - 1/20))
          + max (1/5) (min (7/10) ((scenarioState 5).screening_weight + 1/20)))
    ∧ (adjustWeightsBasedOnFeedback (scenarioState 5)).screening_weight
      = max (1/5) (min (7/10) ((scenarioState 5).screening_weight + 1/20))
        / (max (3/10) (min (8/10) ((scenarioState 5).similarity_weight - 1/20))
          + max (1/5) (min (7/10) ((scenarioState 5).screening_weight + 1/20))))
    ∧ (∃ st, recordMany initState
          (List.replicate 5 ("c", "m", (9:ℚ), "Not a Fit")) = .ok st
        ∧ st.similarity_weight < 6/10 ∧ st.screening_weight > 4/10
        ∧ st.similarity_weight + st.screening_weight = 1
        ∧ st.similarity_weight = 11/20 ∧ st.screening_weight = 9/20) :=
  adjustment_rule_one_and_scenario (scenarioState 5)
    (by
      have hfd : getRecentFeedback (scenarioState 5) 10
          = List.replicate 5 notFitNine := by
        simp [getRecentFeedback, dbRecent, scenarioState, List.take_replicate]
      rw [hfd]
      simp [List.filter_replicate, notFitNine])
    (by
      have hfd : getRecentFeedback (scenarioState 5) 10
          = List.replicate 5 notFitNine := by
        simp [getRecentFeedback, dbRecent, scenarioState, List.take_replicate]
      have hnot : (List.replicate 5 notFitNine).filter
          (fun f => f.feedback = "Not a Fit") = List.replicate 5 notFitNine := by
        simp [List.filter_replicate, notFitNine]
      rw [hfd, hnot]
      norm_num [avgScore, notFitNine, List.map_replicate, List.sum_replicate])

theorem adjust_store (s : FBState) :
    (adjustWeightsBasedOnFeedback s).store = s.store := by
  by_cases hfd : getRecentFeedback s 10 = []
  · rw [adjust_weights_id s hfd]
  · rcases adjust_weights_after s hfd with ⟨p, hp⟩
    rw [hp, (recordWeightAdjustment_fields _ _ _).2.2.1, clampNormalize_store]

theorem tryAdjust_store (s : FBState) :
    (tryAdjustWeights s).store = s.store := by
  unfold tryAdjustWeights
  split_ifs
  · exact adjust_store _
  · rfl

/-- C6: `record_feedback` rejects any feedback value other than the two
accepted literals with a validation error (leaving the store untouched and
running no adjustment pass, since no new state is produced), and for either
accepted literal it appends exactly one entry and returns the new row
id. -/
theorem record_feedback_validation (s : FBState) (cid hid : String) (score : ℚ)
    (fb : String) (notes : Option String) :
    (fb ≠ "Good Fit" → fb ≠ "Not a Fit" →
      recordFeedback s cid hid score fb notes
        = .error "Feedback must be Good Fit or Not a Fit")
    ∧ ((fb = "Good Fit" ∨ fb = "Not a Fit") → s.dbOk = true →
      ∃ st, recordFeedback s cid hid score fb notes = .ok (st, s.store.length + 1)
        ∧ st.store = s.store ++
            [{ candidate_id := cid, hiring_manager_id := hid,
               final_score := score, feedback := fb, notes := notes }]) := by
  constructor
  · intro hg hn
    unfold recordFeedback
    rw [if_pos ⟨hg, hn⟩]
  · intro hfb hdb
    have hvalid : ¬ (fb ≠ "Good Fit" ∧ fb ≠ "Not a Fit") := by
      rcases hfb with h | h <;> simp [h]
    unfold recordFeedback
    rw [if_neg hvalid, if_neg (by simp [hdb])]
    refine ⟨_, rfl, ?_⟩
    rw [tryAdjust_store]

/-- Witness for C6: "Maybe" is rejected; "Good Fit" is appended on a fresh
collector. -/
theorem record_feedback_validation_witness :
    (("Maybe" : String) ≠ "Good Fit" → ("Maybe" : String) ≠ "Not a Fit" →
      recordFeedback initState "c" "m" 7 "Maybe" none
        = .error "Feedback must be Good Fit or Not a Fit")
    ∧ ((("Maybe" : String) = "Good Fit" ∨ ("Maybe" : String) = "Not a Fit") →
      initState.dbOk = true →
      ∃ st, recordFeedback initState "c" "m" 7 "Maybe" none
          = .ok (st, initState.store.length + 1)
        ∧ st.store = initState.store ++
            [{ candidate_id := "c", hiring_manager_id := "m",
               final_score := 7, feedback := "Maybe", notes := none }]) :=
  record_feedback_validation initState "c" "m" 7 "Maybe" none

/-- C7 counterexample: two `get_weights` calls at different instants differ
in the `updated_at` field, so the snapshots are not equal in every field. -/
theorem get_weights_snapshots_differ :
    getWeights initState 0 ≠ getWeights initState 1 := by
  intro hcontra
  have h2 := congrArg WeightsSnapshot.updated_at hcontra
  simp [getWeights] at h2

/-- C7 (amended): two `get_weights` calls with no intervening
`record_feedback` agree on every field except the `updated_at` timestamp,
which reports the wall-clock instant of each call. -/
theorem get_weights_fields_stable (s : FBState) (t1 t2 : ℕ) :
    (getWeights s t1).similarity_weight = (getWeights s t2).similarity_weight
    ∧ (getWeights s t1).screening_weight = (getWeights s t2).screening_weight
    ∧ (getWeights s t1).confidence = (getWeights s t2).confidence
    ∧ (getWeights s t1).total_feedback = (getWeights s t2).total_feedback :=
  ⟨rfl, rfl, rfl, rfl⟩

/-- C8: `get_feedback_analytics` is a total function (it can never raise);
on a storage error it returns the degraded payload with zero total
feedback, and on a healthy store it reports the live feedback count. -/
theorem analytics_total_or_degraded (s : FBState) (now : ℕ) :
    (s.dbOk = false →
      getFeedbackAnalytics s now
        = { total_feedback := 0, good_fit_count := none, not_fit_count := none,
            good_fit_percentage := none, score_statistics := none,
            current_weights := none, err := some "database error" })
    ∧ (s.dbOk = true →
      (getFeedbackAnalytics s now).total_feedback = s.store.length) := by
  constructor <;> intro hdb <;> simp [getFeedbackAnalytics, dbCount, hdb]

/-- Witness for C8 at a fresh collector whose storage has failed, and at a
healthy one. -/
theorem analytics_total_or_degraded_witness :
    getFeedbackAnalytics { initState with dbOk := false } 0
      = { total_feedback := 0, good_fit_count := none, not_fit_count := none,
          good_fit_percentage := none, score_statistics := none,
          current_weights := none, err := some "database error" }
    ∧ (getFeedbackAnalytics initState 0).total_feedback = initState.store.length :=
  ⟨(analytics_total_or_degraded { initState with dbOk := false } 0).1 rfl,
   (analytics_total_or_degraded initState 0).2 rfl⟩

end TalentVector
